import Mathlib

/-!
Verification of the knowledge-base ingestion and query-routing pipeline of the
streamlit-phidata front-ends (`code-analysis.py`, `code-reviewer.py`,
`pynvme.py`, `renode.py`).

Each per-category upload directory is modelled as an association list from
filename to file content; the upload loops, clear handlers, button handlers
and tool functions of the four front-ends are translated into pure Lean
functions over this state.  External effects that can fail (the Chroma
collection delete, `shutil.rmtree`, the file write inside the save tools, the
agent run) are parameterised by an explicit outcome argument so that every
control path of the source is representable.
-/

namespace StreamlitPhidata

/-- A category upload directory: an association list from filename to the
stored file content.  Lookup returns the first binding. -/
abbrev Fs := List (String × String)

/-- Content stored under a path, `none` when the file does not exist. -/
def fsGet : Fs → String → Option String
  | [], _ => none
  | (q, c) :: rest, p => if q == p then some c else fsGet rest p

/-- Mirror of the `os.path.exists(file_path)` check used by the upload loops. -/
def fsExists (fs : Fs) (p : String) : Bool :=
  (fsGet fs p).isSome

/-- Mirror of `open(file_path, "wb").write(...)` and `open(filepath, "w")`:
replaces the content of an existing file, creates the file otherwise. -/
def fsWrite : Fs → String → String → Fs
  | [], p, c => [(p, c)]
  | (q, d) :: rest, p, c =>
      if q == p then (p, c) :: rest else (q, d) :: fsWrite rest p c

/-- One iteration of the checked upload loop of `code-reviewer.py` (lines
232-254) — the same existence-check-then-write shape appears in `pynvme.py`
(lines 399-404) and `renode.py` (lines 634-639).  Returns the updated
directory together with whether a write actually happened (the Artifact
Store's `written` flag; in `code-reviewer.py` it feeds `files_updated`). -/
def store (fs : Fs) (name content : String) : Fs × Bool :=
  if fsExists fs name then (fs, false) else (fsWrite fs name content, true)

/-- One iteration of the upload loop of `code-analysis.py` (lines 113-117):
the file is written unconditionally, with no existence check. -/
def storeUnchecked (fs : Fs) (name content : String) : Fs :=
  fsWrite fs name content

/-- The checked upload loop over a whole batch, accumulating whether any file
was newly written (the `files_updated` / `doc_updated` accumulation of
`code-reviewer.py`, lines 230-254). -/
def uploadBatch : Fs → List (String × String) → Fs × Bool
  | fs, [] => (fs, false)
  | fs, (name, content) :: rest =>
      let r := store fs name content
      let r2 := uploadBatch r.1 rest
      (r2.1, r.2 || r2.2)

/-- The upload handler of `code-reviewer.py` (lines 229-267): process the code
batch and the doc batch through the checked loops, then invoke the
knowledge-base load exactly when `files_updated` is true.  The result is the
two updated directories and whether the load block ran. -/
def reviewerUpload (fsCode fsDocs : Fs) (codeBatch docBatch : List (String × String)) :
    Fs × Fs × Bool :=
  let rc := if codeBatch.isEmpty then (fsCode, false) else uploadBatch fsCode codeBatch
  let rd := if docBatch.isEmpty then (fsDocs, false) else uploadBatch fsDocs docBatch
  (rc.1, rd.1, rc.2 || rd.2)

/-- The upload handler of `code-analysis.py` (lines 113-124): if the batch is
non-empty, every file is written unconditionally and the knowledge-base load
is invoked unconditionally.  The Boolean records whether the load ran. -/
def analysisUpload (fs : Fs) (batch : List (String × String)) : Fs × Bool :=
  if batch.isEmpty then (fs, false)
  else (batch.foldl (fun acc p => storeUnchecked acc p.1 p.2) fs, true)

/-- Whether `sub` occurs at the start of `s` (character lists). -/
def beginsWith : List Char → List Char → Bool
  | [], _ => true
  | _ :: _, [] => false
  | a :: as, b :: bs => a == b && beginsWith as bs

/-- Whether `sub` occurs anywhere inside `s` (character lists). -/
def containsSub (sub s : List Char) : Bool :=
  match s with
  | [] => sub.isEmpty
  | _ :: rest => beginsWith sub s || containsSub sub rest

/-- Mirror of the Python substring test `sub in s` on strings. -/
def strContains (s sub : String) : Bool :=
  containsSub sub.data s.data

/-- The dictionary built by `validate_test_structure` (`pynvme.py` lines 72-77). -/
structure ValidationResults where
  is_valid : Bool
  errors : List String
  warnings : List String
  suggestions : List String
deriving DecidableEq

/-- `validate_test_structure` from `pynvme.py` (lines 62-99): substring checks
for the required imports `pytest` and `pynvme`, the `def test_` function
marker, the PyNVMe fixtures and assertions. -/
def validate_test_structure (test_code : String) : ValidationResults :=
  let r0 : ValidationResults := ⟨true, [], [], []⟩
  let r1 :=
    if !(strContains test_code "pytest") then
      { r0 with errors := r0.errors ++ ["Missing import: pytest"], is_valid := false }
    else r0
  let r2 :=
    if !(strContains test_code "pynvme") then
      { r1 with errors := r1.errors ++ ["Missing import: pynvme"], is_valid := false }
    else r1
  let r3 :=
    if !(strContains test_code "def test_") then
      { r2 with errors := r2.errors ++ ["No test function found (should start with def test_)"],
                is_valid := false }
    else r2
  let r4 :=
    if !(strContains test_code "nvme") && !(strContains test_code "subsystem") then
      { r3 with warnings := r3.warnings ++ ["No PyNVMe fixture (nvme/subsystem) detected"] }
    else r3
  let r5 :=
    if !(strContains test_code "assert") then
      { r4 with warnings := r4.warnings ++ ["No assertions found in test"] }
    else r4
  r5

/-- One knowledge-base load call site, with the flags the source passes. -/
structure LoadCall where
  site : String
  recreate : Bool
  upsert : Bool
deriving DecidableEq

/-- Every knowledge-base load call site in the repository:
`code_knowledge.load` in `code-analysis.py` line 121, `code_knowledge.load`
and `docs_knowledge.load` in `code-reviewer.py` lines 262 and 264,
`pynvme_knowledge.load` in `pynvme.py` line 409, and `renode_knowledge.load`
in `renode.py` line 644. -/
def ingestionCalls : List LoadCall :=
  [⟨"code-analysis.py:121", false, true⟩,
   ⟨"code-reviewer.py:262", false, true⟩,
   ⟨"code-reviewer.py:264", false, true⟩,
   ⟨"pynvme.py:409", false, true⟩,
   ⟨"renode.py:644", false, true⟩]

/-- A vector collection: an association list from chunk id to chunk text. -/
abbrev Collection := List (String × String)

/-- Text stored under a chunk id, `none` when absent. -/
def lookupChunk : Collection → String → Option String
  | [], _ => none
  | (i, t) :: rest, k => if i == k then some t else lookupChunk rest k

/-- The chunk ids of a collection, in order. -/
def chunkKeys (c : Collection) : List String :=
  c.map Prod.fst

/-- Modelled from the spec: the Vector Index `upsert` operation (spec §6 and
glossary — insert-or-update without dropping existing unrelated entries).
The phi library that implements it is an external service, not part of this
repository.  Replaces the chunk stored under the id, or appends a new one. -/
def upsertChunk : Collection → String → String → Collection
  | [], k, t => [(k, t)]
  | (i, u) :: rest, k, t =>
      if i == k then (k, t) :: rest else (i, u) :: upsertChunk rest k t

/-- Modelled from the spec: the phi knowledge-base `load(recreate, upsert)`
operation (spec §4.2) — `recreate` drops the whole collection before
ingesting, `upsert` inserts-or-updates each document chunk by id, and
without `upsert` only ids not yet present are inserted. -/
def kbLoad (c : Collection) (docs : List (String × String))
    (recreate upsert : Bool) : Collection :=
  let base := if recreate then [] else c
  docs.foldl
    (fun acc d =>
      if upsert then upsertChunk acc d.1 d.2
      else if (lookupChunk acc d.1).isSome then acc else acc ++ [d])
    base

/-- Outcome of a Clear Knowledge Base handler run. -/
structure ClearResult where
  dirsAttempted : List String
  dirsDeleted : List String
  warnings : List String
  errorShown : Option String
deriving DecidableEq

/-- The per-directory deletion loop shared by the Clear handlers: for each
listed folder that exists, attempt `shutil.rmtree`; a failure produces a
warning for that folder and the loop continues.  Returns the folders
attempted, the folders deleted and the warnings, in order. -/
def clearFolders (folders : List String) (present rmFails : String → Bool) :
    List String × List String × List String :=
  match folders with
  | [] => ([], [], [])
  | f :: rest =>
      let r := clearFolders rest present rmFails
      if present f then
        if rmFails f then
          (f :: r.1, r.2.1, ("Could not fully delete " ++ f) :: r.2.2)
        else (f :: r.1, f :: r.2.1, r.2.2)
      else r

/-- The directories listed by the `code-reviewer.py` Clear handler. -/
def reviewerFolders : List String :=
  ["uploaded_code", "uploaded_docs", "./chroma_db"]

/-- The Clear Knowledge Base handler of `code-reviewer.py` (lines 185-214):
the collection delete has its own try/except (a failure only adds a warning),
and each directory delete has its own try/except inside the loop, so one
directory failure does not stop the remaining deletions. -/
def reviewerClear (deleteCollectionFails : Bool) (present rmFails : String → Bool) :
    ClearResult :=
  let collWarns := if deleteCollectionFails then ["Could not delete collection"] else []
  let r := clearFolders reviewerFolders present rmFails
  ⟨r.1, r.2.1, collWarns ++ r.2.2, none⟩

/-- The directories listed by the `pynvme.py` Clear handler. -/
def pynvmeFolders : List String :=
  ["pynvme_docs", "./pynvme_chroma_db", "generated_tests"]

/-- The Clear Knowledge Base handler of `pynvme.py` (lines 415-433): the
collection delete is guarded only by the outer try/except, so a failure jumps
straight to the outer error path and no directory is touched; the directory
deletes use `shutil.rmtree(..., ignore_errors=True)`, which never raises. -/
def pynvmeClear (deleteCollectionFails : Bool) (present : String → Bool) : ClearResult :=
  if deleteCollectionFails then ⟨[], [], [], some "Error clearing knowledge base"⟩
  else
    let r := clearFolders pynvmeFolders present (fun _ => false)
    ⟨r.1, r.2.1, r.2.2, none⟩

/-- The directories listed by the `renode.py` Clear handler. -/
def renodeFolders : List String :=
  ["renode_docs", "./renode_chroma_db", "generated_renode"]

/-- The Clear Knowledge Base handler of `renode.py` (lines 650-668), the same
structure as the `pynvme.py` handler. -/
def renodeClear (deleteCollectionFails : Bool) (present : String → Bool) : ClearResult :=
  if deleteCollectionFails then ⟨[], [], [], some "Error clearing knowledge base"⟩
  else
    let r := clearFolders renodeFolders present (fun _ => false)
    ⟨r.1, r.2.1, r.2.2, none⟩

/-- Outcome of a respond-button handler: whether the agent run was invoked
and which precondition warning (if any) was shown instead. -/
structure HandlerOutcome where
  invoked : Bool
  warning : Option String
deriving DecidableEq

/-- The Analyze Code button handler of `code-analysis.py` (lines 133-151):
artifact-count check first, then empty-query check, otherwise the agent
run.  The same two checks (in the other order) guard every tab handler of
`code-reviewer.py`. -/
def analyzeCodeHandler (codeCount : Nat) (query : String) : HandlerOutcome :=
  if codeCount == 0 then ⟨false, some "Please upload code files first!"⟩
  else if query.isEmpty then ⟨false, some "Please enter an analysis request"⟩
  else ⟨true, none⟩

/-- The Orchestrated Generation button handler of `pynvme.py` (lines
481-518): only the empty-query check guards the agent run; the artifact
(documentation) count is never consulted. -/
def orchestrateHandler (docCount : Nat) (query : String) : HandlerOutcome :=
  if query.isEmpty then ⟨false, some "Please describe the test requirement"⟩
  else ⟨true, none⟩

/-- The dictionary returned by the save tools. -/
structure SaveResult where
  status : String
  filepath : String
  message : String
deriving DecidableEq

/-- The filename built by `save_test_case` (`pynvme.py` lines 201-202):
the requested test name, an underscore, the second-resolution timestamp
`%Y%m%d_%H%M%S`, and the `.py` extension — no sanitization, no uniquifying
suffix. -/
def testFilename (test_name timestamp : String) : String :=
  test_name ++ "_" ++ timestamp ++ ".py"

/-- The full path built by `save_test_case` (`pynvme.py` lines 197-203). -/
def testFilepath (category test_name timestamp : String) : String :=
  "generated_tests/" ++ category ++ "/" ++ testFilename test_name timestamp

/-- `save_test_case` from `pynvme.py` (lines 183-219).  `raised` models an
exception thrown anywhere inside the `try` block (directory creation or file
write); the source catches it and returns the error dictionary with an empty
filepath. -/
def save_test_case (fs : Fs) (test_name test_code category timestamp : String)
    (raised : Option String) : Fs × SaveResult :=
  match raised with
  | some e => (fs, ⟨"error", "", "Error saving test: " ++ e⟩)
  | none =>
      let filepath := testFilepath category test_name timestamp
      (fsWrite fs filepath test_code,
       ⟨"success", filepath, "Test saved successfully to " ++ filepath⟩)

/-- ASCII model of the regex word class used by `save_renode_code`. -/
def isWordChar (c : Char) : Bool :=
  c.isAlphanum || c == '_'

/-- One character of the `re.sub(r'[^\w\-_]', '_', filename)` rewrite:
characters outside the word class and hyphen are replaced by underscore. -/
def sanitizeChar (c : Char) : Char :=
  if isWordChar c || c == '-' then c else '_'

/-- The `safe_filename` computation of `save_renode_code` (`renode.py` line
291). -/
def safe_filename (s : String) : String :=
  String.mk (s.data.map sanitizeChar)

/-- The extension map of `save_renode_code` (`renode.py` lines 277-283). -/
def renodeExt (code_type : String) : String :=
  if code_type == "resc" then ".resc"
  else if code_type == "repl" then ".repl"
  else if code_type == "cs" then ".cs"
  else if code_type == "platform" then ".repl"
  else ".txt"

/-- The final path component built by `save_renode_code` (`renode.py` line
292): sanitized name, underscore, second-resolution timestamp, extension. -/
def renodeComponent (filename timestamp code_type : String) : String :=
  safe_filename filename ++ "_" ++ timestamp ++ renodeExt code_type

/-- The full path built by `save_renode_code` (`renode.py` lines 286-293). -/
def renodeFilepath (category code_type filename timestamp : String) : String :=
  "generated_renode/" ++ category ++ "/" ++ code_type ++ "/"
    ++ renodeComponent filename timestamp code_type

/-- `save_renode_code` from `renode.py` (lines 262-309), with `raised`
modelling an exception inside the `try` block as for `save_test_case`. -/
def save_renode_code (fs : Fs) (filename code code_type category timestamp : String)
    (raised : Option String) : Fs × SaveResult :=
  match raised with
  | some e => (fs, ⟨"error", "", "Error saving code: " ++ e⟩)
  | none =>
      let filepath := renodeFilepath category code_type filename timestamp
      (fsWrite fs filepath code,
       ⟨"success", filepath, "Code saved successfully to " ++ filepath⟩)

/-- Path components of a character list, split on the separator. -/
def splitOnChar (sep : Char) : List Char → List (List Char)
  | [] => [[]]
  | c :: rest =>
      match splitOnChar sep rest with
      | [] => [[]]
      | head :: tail => if c == sep then [] :: head :: tail else (c :: head) :: tail

/-- One entry of the session history (`review_history` in
`code-reviewer.py`, with `type` renamed to `kind`). -/
structure InteractionRecord where
  kind : String
  query : String
  response : String
deriving DecidableEq

/-- The Code Analysis tab handler of `code-reviewer.py` (lines 324-343):
empty-query check, artifact-count check, then the agent run; on success
exactly one record is appended to the session history, on an exception
nothing is appended. -/
def codeAnalysisTab (history : List InteractionRecord) (codeCount : Nat)
    (query : String) (runResult : Except String String) : List InteractionRecord :=
  if query.isEmpty then history
  else if codeCount == 0 then history
  else
    match runResult with
    | Except.ok content => history ++ [⟨"Code Analysis", query, content⟩]
    | Except.error _ => history

/-- The PyNVMe Expert tab handler of `pynvme.py` (lines 613-622): the
response is rendered but no record is appended to the session history on any
path (the RENODE Expert tab of `renode.py`, lines 926-939, is identical). -/
def pynvmeExpertTab (history : List InteractionRecord) (query : String)
    (runResult : Except String String) : List InteractionRecord :=
  if query.isEmpty then history
  else
    match runResult with
    | Except.ok _ => history
    | Except.error _ => history

/- ------------------------------------------------------------------ -/
/- Theorems -/
/- ------------------------------------------------------------------ -/

theorem fsGet_fsWrite_self (fs : Fs) (p c : String) :
    fsGet (fsWrite fs p c) p = some c := by
  induction fs with
  | nil => simp [fsWrite, fsGet]
  | cons hd tl ih =>
    obtain ⟨q, d⟩ := hd
    by_cases h : q = p
    · subst h; simp [fsWrite, fsGet]
    · simp [fsWrite, fsGet, h, ih]

theorem fsGet_fsWrite_other (fs : Fs) (p q c : String) (h : p ≠ q) :
    fsGet (fsWrite fs p c) q = fsGet fs q := by
  induction fs with
  | nil => simp [fsWrite, fsGet, h]
  | cons hd tl ih =>
    obtain ⟨r, d⟩ := hd
    by_cases h2 : r = p
    · subst h2; simp [fsWrite, fsGet, h]
    · simp [fsWrite, fsGet, h2, ih]

theorem uploadBatch_flag_eq_any (fs : Fs) (batch : List (String × String)) :
    (uploadBatch fs batch).2 = batch.any (fun p => !(fsExists fs p.1)) := by
  induction batch generalizing fs with
  | nil => simp [uploadBatch]
  | cons hd tl ih =>
    obtain ⟨name, content⟩ := hd
    by_cases h : fsExists fs name
    · simp [uploadBatch, store, h, ih]
    · simp [uploadBatch, store, h]

/-- C1 counterexample: in `code-analysis.py` the upload loop writes
unconditionally, so uploading `a.c` with bytes `A` and then again with bytes
`B` leaves the stored content equal to `B`, not equal to the first upload's
bytes — the claim as stated is false on this front-end. -/
theorem upload_overwrite_counterexample :
    fsGet (storeUnchecked (storeUnchecked [] "a.c" "A") "a.c" "B") "a.c" = some "B"
      ∧ some "B" ≠ some "A" := by
  constructor
  · decide
  · decide

/-- C1 (amended): first-write-wins holds for the checked upload loops of
`code-reviewer.py`, `pynvme.py` and `renode.py`: the first store of a new
name writes the bytes and reports written=true, and a second store of the
same name with any byte content leaves the stored content equal to the first
upload's bytes and reports written=false.  The `code-analysis.py` upload loop
is exempted: it writes unconditionally, so the second upload overwrites. -/
theorem store_first_write_wins (fs : Fs) (name b1 b2 : String)
    (h : fsExists fs name = false) :
    (store fs name b1).2 = true
      ∧ (store (store fs name b1).1 name b2).2 = false
      ∧ fsGet (store (store fs name b1).1 name b2).1 name = some b1 := by
  have h1 : store fs name b1 = (fsWrite fs name b1, true) := by
    simp [store, h]
  have h2 : fsExists (fsWrite fs name b1) name = true := by
    simp [fsExists, fsGet_fsWrite_self]
  refine ⟨by simp [h1], ?_, ?_⟩
  · rw [h1]; simp [store, h2]
  · rw [h1]; simp [store, h2, fsGet_fsWrite_self]

theorem store_first_write_wins_witness :
    fsExists [] "driver.c" = false
      ∧ ((store [] "driver.c" "A").2 = true
          ∧ (store (store [] "driver.c" "A").1 "driver.c" "B").2 = false
          ∧ fsGet (store (store [] "driver.c" "A").1 "driver.c" "B").1 "driver.c"
              = some "A") :=
  ⟨by decide, store_first_write_wins [] "driver.c" "A" "B" (by decide)⟩

/-- C2 counterexample: in `code-analysis.py` the knowledge-base load runs on
every non-empty upload batch; a batch whose only filename already exists on
disk still triggers the load, contradicting the claim that the load is never
invoked when no new file was written. -/
theorem analysis_load_on_duplicate_batch :
    fsExists [("a.c", "A")] "a.c" = true
      ∧ (analysisUpload [("a.c", "A")] [("a.c", "B")]).2 = true := by
  constructor
  · decide
  · decide

/-- C2 (amended): the `files_updated` guard of `code-reviewer.py` is exact —
the knowledge-base load block runs iff the current upload batch wrote at
least one new file; equivalently, it does not run iff every filename of both
batches already exists in its category directory.  `code-analysis.py` is
exempted (it loads on every non-empty batch), and in `pynvme.py`/`renode.py`
ingestion is triggered by an explicit button rather than by the writes. -/
theorem reviewer_load_iff_new_file (fsCode fsDocs : Fs)
    (codeBatch docBatch : List (String × String)) :
    (reviewerUpload fsCode fsDocs codeBatch docBatch).2.2 = false
      ↔ ((∀ p ∈ codeBatch, fsExists fsCode p.1 = true)
          ∧ (∀ p ∈ docBatch, fsExists fsDocs p.1 = true)) := by
  have hc : ∀ (fs : Fs) (batch : List (String × String)),
      (if batch.isEmpty then (fs, false) else uploadBatch fs batch).2
        = batch.any (fun p => !(fsExists fs p.1)) := by
    intro fs batch
    cases batch with
    | nil => simp
    | cons hd tl => simpa using uploadBatch_flag_eq_any fs (hd :: tl)
  simp only [reviewerUpload, hc, Bool.or_eq_false_iff, List.any_eq_false]
  simp

/-- C9: postcondition of `validate_test_structure` — `is_valid` is true iff the
test code contains all three substrings `pytest`, `pynvme` and `def test_`,
and each missing substring contributes exactly one entry to the errors list.
The function is total by construction. -/
theorem validate_test_structure_postcondition (t : String) :
    ((validate_test_structure t).is_valid
        = (strContains t "pytest" && strContains t "pynvme" && strContains t "def test_"))
      ∧ ((validate_test_structure t).errors.length
          = (if strContains t "pytest" then 0 else 1)
            + (if strContains t "pynvme" then 0 else 1)
            + (if strContains t "def test_" then 0 else 1)) := by
  cases h1 : strContains t "pytest" <;>
    cases h2 : strContains t "pynvme" <;>
      cases h3 : strContains t "def test_" <;>
        cases h4 : !(strContains t "nvme") && !(strContains t "subsystem") <;>
          cases h5 : strContains t "assert" <;>
            simp [validate_test_structure, h1, h2, h3, h4, h5]

theorem lookupChunk_upsert_other (c : Collection) (k j t : String) (h : j ≠ k) :
    lookupChunk (upsertChunk c j t) k = lookupChunk c k := by
  induction c with
  | nil => simp [upsertChunk, lookupChunk, h]
  | cons hd tl ih =>
    obtain ⟨i, u⟩ := hd
    by_cases h2 : i = j
    · subst h2; simp [upsertChunk, lookupChunk, h]
    · simp [upsertChunk, lookupChunk, h2, ih]

theorem lookupChunk_none_not_mem (c : Collection) (k : String)
    (h : lookupChunk c k = none) : k ∉ chunkKeys c := by
  induction c with
  | nil => simp [chunkKeys]
  | cons hd tl ih =>
    obtain ⟨i, u⟩ := hd
    by_cases h2 : i = k
    · subst h2; simp [lookupChunk] at h
    · simp only [lookupChunk, h2, if_neg, beq_iff_eq] at h
      simp [chunkKeys] at ih ⊢
      exact ⟨fun he => h2 he.symm, ih h⟩

theorem chunkKeys_upsert (c : Collection) (k t : String) :
    chunkKeys (upsertChunk c k t)
      = if (lookupChunk c k).isSome then chunkKeys c else chunkKeys c ++ [k] := by
  induction c with
  | nil => simp [upsertChunk, lookupChunk, chunkKeys]
  | cons hd tl ih =>
    obtain ⟨i, u⟩ := hd
    by_cases h2 : i = k
    · subst h2; simp [upsertChunk, lookupChunk, chunkKeys]
    · have hu : chunkKeys (upsertChunk ((i, u) :: tl) k t)
          = i :: chunkKeys (upsertChunk tl k t) := by
        simp [upsertChunk, chunkKeys, h2]
      have hl : lookupChunk ((i, u) :: tl) k = lookupChunk tl k := by
        simp [lookupChunk, h2]
      rw [hu, ih, hl]
      by_cases h3 : (lookupChunk tl k).isSome
      · simp [h3, chunkKeys]
      · simp [h3, chunkKeys]

theorem chunkKeys_nodup_upsert (c : Collection) (k t : String)
    (h : (chunkKeys c).Nodup) : (chunkKeys (upsertChunk c k t)).Nodup := by
  rw [chunkKeys_upsert]
  by_cases h2 : (lookupChunk c k).isSome
  · simp [h2, h]
  · have hmem : k ∉ chunkKeys c := by
      apply lookupChunk_none_not_mem
      exact Option.not_isSome_iff_eq_none.mp h2
    simp [h2, List.nodup_append, h, hmem]

theorem upsertFold_lookup (docs : List (String × String)) (c : Collection) (k : String)
    (h : ∀ d ∈ docs, d.1 ≠ k) :
    lookupChunk (docs.foldl (fun acc d => upsertChunk acc d.1 d.2) c) k
      = lookupChunk c k := by
  induction docs generalizing c with
  | nil => simp
  | cons d ds ih =>
    have hd : d.1 ≠ k := h d (List.mem_cons_self d ds)
    have hrest : ∀ x ∈ ds, x.1 ≠ k := fun x hx => h x (List.mem_cons_of_mem d hx)
    simp only [List.foldl_cons]
    rw [ih (upsertChunk c d.1 d.2) hrest, lookupChunk_upsert_other c k d.1 d.2 hd]

theorem upsertFold_nodup (docs : List (String × String)) (c : Collection)
    (h : (chunkKeys c).Nodup) :
    (chunkKeys (docs.foldl (fun acc d => upsertChunk acc d.1 d.2) c)).Nodup := by
  induction docs generalizing c with
  | nil => simpa
  | cons d ds ih =>
    simp only [List.foldl_cons]
    exact ih _ (chunkKeys_nodup_upsert c d.1 d.2 h)

theorem kbLoad_upsert_eq (c : Collection) (docs : List (String × String)) :
    kbLoad c docs false true
      = docs.foldl (fun acc d => upsertChunk acc d.1 d.2) c := by
  simp [kbLoad]

/-- C3: every knowledge-base load call site in the repository passes
recreate=false and upsert=true, and under the modelled load semantics such a
call is upsert and non-recreating: a chunk id not re-ingested keeps exactly
its previous content (nothing is deleted, the collection is never dropped),
and no chunk id becomes duplicated. -/
theorem ingestion_upsert_non_recreating :
    (∀ call ∈ ingestionCalls, call.recreate = false ∧ call.upsert = true)
      ∧ (∀ (c : Collection) (docs : List (String × String)) (k : String),
            (∀ d ∈ docs, d.1 ≠ k)
              → lookupChunk (kbLoad c docs false true) k = lookupChunk c k)
      ∧ (∀ (c : Collection) (docs : List (String × String)),
            (chunkKeys c).Nodup → (chunkKeys (kbLoad c docs false true)).Nodup) := by
  refine ⟨by decide, ?_, ?_⟩
  · intro c docs k h
    rw [kbLoad_upsert_eq]
    exact upsertFold_lookup docs c k h
  · intro c docs h
    rw [kbLoad_upsert_eq]
    exact upsertFold_nodup docs c h

theorem ingestion_upsert_non_recreating_witness :
    lookupChunk (kbLoad [("driver.c", "chunk1")] [("main.c", "chunk2")] false true)
        "driver.c" = lookupChunk [("driver.c", "chunk1")] "driver.c"
      ∧ (chunkKeys (kbLoad [("driver.c", "chunk1")] [("main.c", "chunk2")] false true)).Nodup :=
  ⟨ingestion_upsert_non_recreating.2.1 [("driver.c", "chunk1")] [("main.c", "chunk2")]
      "driver.c" (by decide),
   ingestion_upsert_non_recreating.2.2 [("driver.c", "chunk1")] [("main.c", "chunk2")]
      (by decide)⟩

theorem clearFolders_spec (folders : List String) (present rmFails : String → Bool) :
    (clearFolders folders present rmFails).1 = folders.filter (fun f => present f)
      ∧ (clearFolders folders present rmFails).2.1
          = folders.filter (fun f => present f && !(rmFails f))
      ∧ (clearFolders folders present rmFails).2.2
          = (folders.filter (fun f => present f && rmFails f)).map
              (fun f => "Could not fully delete " ++ f) := by
  induction folders with
  | nil => simp [clearFolders]
  | cons f rest ih =>
    by_cases hp : present f
    · by_cases hr : rmFails f
      · simp [clearFolders, hp, hr, ih.1, ih.2.1, ih.2.2, List.filter_cons]
      · simp [clearFolders, hp, hr, ih.1, ih.2.1, ih.2.2, List.filter_cons]
    · simp [clearFolders, hp, ih.1, ih.2.1, ih.2.2, List.filter_cons]

/-- C4 counterexample: in `pynvme.py` the vector-collection delete is guarded
only by the handler's outer try/except, so when it fails (for example because
the collection is absent) the handler jumps to the outer error path and not
one of the listed directories is deleted — directory deletion does not
proceed, contrary to the claim.  With a succeeding collection delete the same
handler attempts all three directories. -/
theorem pynvme_clear_abort_counterexample :
    (pynvmeClear true (fun _ => true)).dirsAttempted = []
      ∧ (pynvmeClear true (fun _ => true)).errorShown
          = some "Error clearing knowledge base"
      ∧ (pynvmeClear false (fun _ => true)).dirsAttempted = pynvmeFolders := by
  refine ⟨rfl, rfl, ?_⟩
  rfl

/-- C4 (amended): the Clear Knowledge Base handler of `code-reviewer.py` is
order-tolerant and best-effort exactly as claimed: whatever the
collection-delete outcome, every listed existing directory is attempted, each
individual directory failure produces its own warning, and the remaining
directories are still deleted.  The `pynvme.py` and `renode.py` handlers are
exempted: there a collection-delete failure aborts the handler before any
directory is deleted (see the counterexample). -/
theorem reviewer_clear_best_effort (deleteCollectionFails : Bool)
    (present rmFails : String → Bool) :
    (reviewerClear deleteCollectionFails present rmFails).dirsAttempted
        = reviewerFolders.filter (fun f => present f)
      ∧ (reviewerClear deleteCollectionFails present rmFails).dirsDeleted
          = reviewerFolders.filter (fun f => present f && !(rmFails f))
      ∧ (reviewerClear deleteCollectionFails present rmFails).warnings
          = (if deleteCollectionFails then ["Could not delete collection"] else [])
            ++ (reviewerFolders.filter (fun f => present f && rmFails f)).map
                (fun f => "Could not fully delete " ++ f)
      ∧ (reviewerClear deleteCollectionFails present rmFails).errorShown = none := by
  have h := clearFolders_spec reviewerFolders present rmFails
  refine ⟨?_, ?_, ?_, rfl⟩
  · simpa [reviewerClear] using h.1
  · simpa [reviewerClear] using h.2.1
  · simp [reviewerClear, h.2.2]

/-- C5 counterexample: the Orchestrated Generation handler of `pynvme.py`
invokes the agent run although the artifact count is 0 and the query is
non-empty — no precondition warning is shown and the remote call is made,
contrary to the claim. -/
theorem orchestrate_no_artifact_check :
    (orchestrateHandler 0 "Generate a sequential read test").invoked = true
      ∧ (orchestrateHandler 0 "Generate a sequential read test").warning = none
      ∧ ("Generate a sequential read test").isEmpty = false := by
  refine ⟨rfl, rfl, ?_⟩
  decide

/-- C5 (amended): the Analyze Code handler of `code-analysis.py` (and
likewise every `code-reviewer.py` tab handler) enforces both preconditions:
with zero artifacts or an empty query it emits a warning and never invokes
the agent run.  The `pynvme.py`/`renode.py` generation handlers are
exempted: they enforce only the non-empty-query precondition (shown here for
the empty query) and never consult the artifact count. -/
theorem precondition_enforcement_amended (codeCount docCount : Nat) (query : String)
    (h : codeCount = 0 ∨ query.isEmpty = true) :
    ((analyzeCodeHandler codeCount query).invoked = false
        ∧ (analyzeCodeHandler codeCount query).warning.isSome = true)
      ∧ ((orchestrateHandler docCount "").invoked = false
          ∧ (orchestrateHandler docCount "").warning.isSome = true) := by
  refine ⟨?_, by constructor <;> rfl⟩
  rcases h with h | h
  · subst h; constructor <;> rfl
  · by_cases hc : codeCount == 0
    · constructor <;> simp [analyzeCodeHandler, hc]
    · constructor <;> simp [analyzeCodeHandler, hc, h]

theorem precondition_enforcement_amended_witness :
    ((0 : Nat) = 0 ∨ ("check for buffer overflow").isEmpty = true)
      ∧ (((analyzeCodeHandler 0 "check for buffer overflow").invoked = false
            ∧ (analyzeCodeHandler 0 "check for buffer overflow").warning.isSome = true)
          ∧ ((orchestrateHandler 3 "").invoked = false
              ∧ (orchestrateHandler 3 "").warning.isSome = true)) :=
  ⟨Or.inl rfl,
   precondition_enforcement_amended 0 3 "check for buffer overflow" (Or.inl rfl)⟩

theorem testFilepath_inj_ts (cat n ts1 ts2 : String)
    (h : testFilepath cat n ts1 = testFilepath cat n ts2) : ts1 = ts2 := by
  have hd := congrArg String.data h
  simp only [testFilepath, testFilename, String.data_append, List.append_assoc] at hd
  exact String.ext (List.append_cancel_right
    (List.append_cancel_left (List.append_cancel_left (List.append_cancel_left
      (List.append_cancel_left (List.append_cancel_left hd))))))

theorem renodeFilepath_inj_ts (cat ct f ts1 ts2 : String)
    (h : renodeFilepath cat ct f ts1 = renodeFilepath cat ct f ts2) : ts1 = ts2 := by
  have hd := congrArg String.data h
  simp only [renodeFilepath, renodeComponent, String.data_append, List.append_assoc] at hd
  exact String.ext (List.append_cancel_right
    (List.append_cancel_left (List.append_cancel_left (List.append_cancel_left
      (List.append_cancel_left (List.append_cancel_left (List.append_cancel_left
        (List.append_cancel_left hd))))))))

/-- C6 counterexample: the save tools derive the filename from a
second-resolution timestamp with no uniquifying suffix, so two
`save_test_case` calls with the same test name in the same second build the
same path, and the second `open(..., "w")` overwrites the first — after both
saves a single file exists on disk and it holds the second content, not two
distinct files. -/
theorem same_second_save_overwrites :
    (save_test_case [] "t" "A" "general" "20240101_000000" none).2.filepath
        = (save_test_case (save_test_case [] "t" "A" "general" "20240101_000000" none).1
            "t" "B" "general" "20240101_000000" none).2.filepath
      ∧ (save_test_case (save_test_case [] "t" "A" "general" "20240101_000000" none).1
            "t" "B" "general" "20240101_000000" none).1
          = [("generated_tests/general/t_20240101_000000.py", "B")] := by
  constructor
  · rfl
  · decide

/-- C6 (amended): every save creates a file named with the second-resolution
timestamp, so two saves of the same logical name at different timestamps
produce two distinct files, both present on disk with their respective
contents — shown for `save_test_case`, with the same path-distinctness for
`save_renode_code`.  Two saves of the same name within the same second are
exempted: they build the same path and the second overwrites the first (see
the counterexample). -/
theorem distinct_timestamp_saves_distinct (fs : Fs) (n c1 c2 cat ct ts1 ts2 : String)
    (h : ts1 ≠ ts2) :
    testFilepath cat n ts1 ≠ testFilepath cat n ts2
      ∧ fsGet (save_test_case (save_test_case fs n c1 cat ts1 none).1 n c2 cat ts2 none).1
          (testFilepath cat n ts1) = some c1
      ∧ fsGet (save_test_case (save_test_case fs n c1 cat ts1 none).1 n c2 cat ts2 none).1
          (testFilepath cat n ts2) = some c2
      ∧ renodeFilepath cat ct n ts1 ≠ renodeFilepath cat ct n ts2 := by
  have hne : testFilepath cat n ts1 ≠ testFilepath cat n ts2 :=
    fun he => h (testFilepath_inj_ts cat n ts1 ts2 he)
  have hne2 : renodeFilepath cat ct n ts1 ≠ renodeFilepath cat ct n ts2 :=
    fun he => h (renodeFilepath_inj_ts cat ct n ts1 ts2 he)
  refine ⟨hne, ?_, ?_, hne2⟩
  · simp only [save_test_case]
    rw [fsGet_fsWrite_other _ _ _ _ (Ne.symm hne)]
    exact fsGet_fsWrite_self fs (testFilepath cat n ts1) c1
  · simp only [save_test_case]
    exact fsGet_fsWrite_self _ _ _

theorem distinct_timestamp_saves_distinct_witness :
    ("20240101_000000" : String) ≠ "20240101_000001"
      ∧ (testFilepath "general" "t" "20240101_000000"
            ≠ testFilepath "general" "t" "20240101_000001"
          ∧ fsGet (save_test_case
              (save_test_case [] "t" "A" "general" "20240101_000000" none).1
              "t" "B" "general" "20240101_000001" none).1
              (testFilepath "general" "t" "20240101_000000") = some "A"
          ∧ fsGet (save_test_case
              (save_test_case [] "t" "A" "general" "20240101_000000" none).1
              "t" "B" "general" "20240101_000001" none).1
              (testFilepath "general" "t" "20240101_000001") = some "B"
          ∧ renodeFilepath "general" "resc" "t" "20240101_000000"
              ≠ renodeFilepath "general" "resc" "t" "20240101_000001") :=
  ⟨by decide,
   distinct_timestamp_saves_distinct [] "t" "A" "B" "general" "resc"
     "20240101_000000" "20240101_000001" (by decide)⟩

theorem sanitizeChar_restricted (c : Char) :
    isWordChar (sanitizeChar c) = true ∨ sanitizeChar c = '-' := by
  unfold sanitizeChar
  by_cases h : (isWordChar c || c == '-') = true
  · rw [if_pos h]
    simpa using h
  · rw [if_neg h]
    exact Or.inl (by decide)

theorem sanitizeChar_ne_sep (c : Char) :
    sanitizeChar c ≠ '/' ∧ sanitizeChar c ≠ '\\' := by
  rcases sanitizeChar_restricted c with h | h
  · constructor <;> intro he <;> rw [he] at h <;> exact absurd h (by decide)
  · rw [h]
    constructor <;> decide

theorem digit_or_underscore_ne_sep (c : Char) (h : (c.isDigit || c == '_') = true) :
    c ≠ '/' ∧ c ≠ '\\' := by
  constructor <;> intro he <;> subst he <;> exact absurd h (by decide)

theorem renodeExt_mem (ct : String) :
    renodeExt ct = ".resc" ∨ renodeExt ct = ".repl" ∨ renodeExt ct = ".cs"
      ∨ renodeExt ct = ".txt" := by
  unfold renodeExt
  split_ifs <;> simp

theorem renodeExt_ne_sep (ct : String) :
    ∀ c ∈ (renodeExt ct).data, c ≠ '/' ∧ c ≠ '\\' := by
  rcases renodeExt_mem ct with h | h | h | h <;> rw [h] <;> decide

theorem renodeComponent_data (f ts ct : String) :
    (renodeComponent f ts ct).data
      = (safe_filename f).data ++ (("_" : String).data
          ++ (ts.data ++ (renodeExt ct).data)) := by
  simp only [renodeComponent, String.data_append, List.append_assoc]

/-- C7 counterexample: `save_test_case` uses the requested test name verbatim
as a part of the path — no rewriting happens — so the name `../evil` yields a
path containing a parent-directory component, which does not stay within the
intended `generated_tests/general` directory. -/
theorem save_test_case_path_escape :
    (save_test_case [] "../evil" "code" "general" "20240101_000000" none).2.filepath
        = testFilepath "general" "../evil" "20240101_000000"
      ∧ ['.', '.'] ∈ splitOnChar '/'
          (testFilepath "general" "../evil" "20240101_000000").data := by
  constructor
  · rfl
  · decide

/-- C7 (amended): `save_renode_code` rewrites the requested filename to the
restricted character set — every character other than alphanumeric,
underscore and hyphen becomes an underscore — so the final path component
contains no path separator and is not a parent-directory token, and the
resulting path stays directly inside the intended
`generated_renode/<category>/<code_type>` directory.  `save_test_case` is
exempted: it applies no sanitization, and a requested name containing `..`
escapes the output directory (see the counterexample). -/
theorem renode_filename_sanitization (cat ct f ts : String)
    (hts : ∀ c ∈ ts.data, (c.isDigit || c == '_') = true) :
    (∀ c ∈ (safe_filename f).data, isWordChar c = true ∨ c = '-')
      ∧ (∀ c ∈ (renodeComponent f ts ct).data, c ≠ '/' ∧ c ≠ '\\')
      ∧ renodeComponent f ts ct ≠ ".."
      ∧ renodeComponent f ts ct ≠ "."
      ∧ renodeFilepath cat ct f ts
          = "generated_renode/" ++ cat ++ "/" ++ ct ++ "/" ++ renodeComponent f ts ct := by
  have hu : ('_' : Char) ∈ (renodeComponent f ts ct).data := by
    rw [renodeComponent_data]
    have h1 : ("_" : String).data = ['_'] := rfl
    rw [h1]
    simp
  refine ⟨?_, ?_, ?_, ?_, rfl⟩
  · intro c hc
    replace hc : c ∈ f.data.map sanitizeChar := hc
    rw [List.mem_map] at hc
    obtain ⟨c0, _, rfl⟩ := hc
    exact sanitizeChar_restricted c0
  · intro c hc
    rw [renodeComponent_data] at hc
    simp only [List.mem_append] at hc
    rcases hc with hc | hc | hc | hc
    · replace hc : c ∈ f.data.map sanitizeChar := hc
      rw [List.mem_map] at hc
      obtain ⟨c0, _, rfl⟩ := hc
      exact sanitizeChar_ne_sep c0
    · rw [List.mem_singleton] at hc
      subst hc
      constructor <;> decide
    · exact digit_or_underscore_ne_sep c (hts c hc)
    · exact renodeExt_ne_sep ct c hc
  · intro he
    rw [he] at hu
    exact absurd hu (by decide)
  · intro he
    rw [he] at hu
    exact absurd hu (by decide)

theorem renode_filename_sanitization_witness :
    (∀ c ∈ ("20240101_000000" : String).data, (c.isDigit || c == '_') = true)
      ∧ ((∀ c ∈ (safe_filename "my file(1)").data, isWordChar c = true ∨ c = '-')
          ∧ (∀ c ∈ (renodeComponent "my file(1)" "20240101_000000" "resc").data,
                c ≠ '/' ∧ c ≠ '\\')
          ∧ renodeComponent "my file(1)" "20240101_000000" "resc" ≠ ".."
          ∧ renodeComponent "my file(1)" "20240101_000000" "resc" ≠ "."
          ∧ renodeFilepath "platforms" "resc" "my file(1)" "20240101_000000"
              = "generated_renode/" ++ "platforms" ++ "/" ++ "resc" ++ "/"
                ++ renodeComponent "my file(1)" "20240101_000000" "resc") :=
  ⟨by decide,
   renode_filename_sanitization "platforms" "resc" "my file(1)" "20240101_000000"
     (by decide)⟩

/-- C8 counterexample: the PyNVMe Expert tab handler of `pynvme.py` completes
a respond action without an exception and appends nothing to the session
history — no InteractionRecord is created, contrary to the claim that every
successful respond action appends exactly one record. -/
theorem expert_tab_no_append :
    pynvmeExpertTab [] "How do I use the qpair fixture" (Except.ok "Use nvme0 qpairs")
        = []
      ∧ ("How do I use the qpair fixture").isEmpty = false := by
  constructor
  · rfl
  · decide

/-- C8 (amended): the Code Analysis tab handler of `code-reviewer.py` (like
the other three `code-reviewer.py` tabs and the `code-analysis.py` handler)
appends exactly one record with the exact query text and the response text on
a successful run, and appends nothing when the run raises.  The PyNVMe and
RENODE Expert tab handlers are exempted: they append no record even on
success (see the counterexample). -/
theorem code_analysis_tab_logging (history : List InteractionRecord) (codeCount : Nat)
    (query content err : String) (hq : query.isEmpty = false)
    (hc : (codeCount == 0) = false) :
    codeAnalysisTab history codeCount query (Except.ok content)
        = history ++ [⟨"Code Analysis", query, content⟩]
      ∧ codeAnalysisTab history codeCount query (Except.error err) = history := by
  constructor <;> simp [codeAnalysisTab, hq, hc]

theorem code_analysis_tab_logging_witness :
    ("check for leaks").isEmpty = false
      ∧ ((1 : Nat) == 0) = false
      ∧ (codeAnalysisTab [] 1 "check for leaks" (Except.ok "no leaks found")
            = [⟨"Code Analysis", "check for leaks", "no leaks found"⟩]
          ∧ codeAnalysisTab [] 1 "check for leaks" (Except.error "connection refused")
              = []) :=
  ⟨by decide, by decide,
   code_analysis_tab_logging [] 1 "check for leaks" "no leaks found"
     "connection refused" (by decide) (by decide)⟩

/-- C10: the save tools report errors as values and never raise: the returned
status is always `success` or `error`; an internal exception yields
status=error with an empty filepath and an unchanged filesystem; on success
the returned filepath names the file that was written with the given
content.  Shown for both `save_test_case` and `save_renode_code`. -/
theorem save_tools_error_as_values (fs : Fs) (n c cat ts f ct e : String)
    (raised : Option String) :
    ((save_test_case fs n c cat ts raised).2.status = "success"
        ∨ (save_test_case fs n c cat ts raised).2.status = "error")
      ∧ (save_test_case fs n c cat ts (some e)).2.status = "error"
      ∧ (save_test_case fs n c cat ts (some e)).2.filepath = ""
      ∧ (save_test_case fs n c cat ts (some e)).1 = fs
      ∧ (save_test_case fs n c cat ts none).2.status = "success"
      ∧ fsGet (save_test_case fs n c cat ts none).1
          (save_test_case fs n c cat ts none).2.filepath = some c
      ∧ ((save_renode_code fs f c ct cat ts raised).2.status = "success"
          ∨ (save_renode_code fs f c ct cat ts raised).2.status = "error")
      ∧ (save_renode_code fs f c ct cat ts (some e)).2.status = "error"
      ∧ (save_renode_code fs f c ct cat ts (some e)).2.filepath = ""
      ∧ (save_renode_code fs f c ct cat ts (some e)).1 = fs
      ∧ (save_renode_code fs f c ct cat ts none).2.status = "success"
      ∧ fsGet (save_renode_code fs f c ct cat ts none).1
          (save_renode_code fs f c ct cat ts none).2.filepath = some c := by
  refine ⟨?_, rfl, rfl, rfl, rfl, ?_, ?_, rfl, rfl, rfl, rfl, ?_⟩
  · cases raised <;> simp [save_test_case]
  · exact fsGet_fsWrite_self _ _ _
  · cases raised <;> simp [save_renode_code]
  · exact fsGet_fsWrite_self _ _ _

end StreamlitPhidata
